import Mathlib

/-!
Verification of the Blender OpenColorIO binding layer
(intern/opencolorio/ocio_impl.cc) against its specification.

The embedding models the pure control and data flow of the source
functions.  Machine floats are modelled by exact rationals where only the
algebraic structure of the computation matters; the external OpenColorIO
processor objects are modelled as opaque functions, as the source treats
them as opaque evaluators.
-/

namespace Ocio

/-! ## PixelProcessor: per-pixel apply functions -/

/-- A 4-channel float pixel, modelled with exact rationals: the claims about
the predivide apply concern the arithmetic structure (divide before, multiply
after), not float rounding. -/
structure Pixel where
  r : ℚ
  g : ℚ
  b : ℚ
  a : ℚ
deriving DecidableEq

/-- OCIOImpl::processorApplyRGBA: applyRGBA of the opaque CPU processor is
modelled as a function on full pixels. -/
def processorApplyRGBA (apply : Pixel → Pixel) (pixel : Pixel) : Pixel :=
  apply pixel

/-- OCIOImpl::processorApplyRGBA_predivide, translated from the source:
if pixel[3] is 1.0 or 0.0 the plain applyRGBA runs; otherwise the first three
channels are multiplied by inv_alpha = 1/alpha, applyRGBA runs on all four
channels, and the first three result channels are multiplied by the original
alpha. -/
def processorApplyRGBA_predivide (apply : Pixel → Pixel) (pixel : Pixel) : Pixel :=
  if pixel.a = 1 ∨ pixel.a = 0 then
    processorApplyRGBA apply pixel
  else
    let alpha := pixel.a
    let inv_alpha := 1 / alpha
    let divided : Pixel :=
      { r := pixel.r * inv_alpha, g := pixel.g * inv_alpha, b := pixel.b * inv_alpha,
        a := pixel.a }
    let q := processorApplyRGBA apply divided
    { r := q.r * alpha, g := q.g * alpha, b := q.b * alpha, a := q.a }

/-! ## ColorSpaceCatalog: invertibility -/

/-- The aspects of an OpenColorIO color space read by colorSpaceIsInvertible:
its family string, its isData flag, and whether getTransform in the
to-reference direction yields a transform. -/
structure ColorSpace where
  family : String
  isData : Bool
  hasToReferenceTransform : Bool
deriving DecidableEq

/-- OCIOImpl::colorSpaceIsInvertible, translated from the source: family
"rrt" or "display" yields false; a data space yields true; a space with a
to-reference transform yields true; the final fallback also returns true. -/
def colorSpaceIsInvertible (cs : ColorSpace) : Bool :=
  if cs.family == "rrt" || cs.family == "display" then
    false
  else if cs.isData then
    true
  else if cs.hasToReferenceTransform then
    true
  else
    true

/-! ## ClassificationProbe: colorSpaceIsBuiltin -/

/-- The outcomes of the per-sample float comparisons inside the 256-iteration
loop of colorSpaceIsBuiltin, abstracted as predicates of the sample index.
They depend only on the opaque CPU processor and the fixed sample values, so
for a fixed processor each is a fixed function of i.  The float/ULP details of
compare_floats live behind these predicates. -/
structure ProbeChecks where
  crosstalk : Nat → Bool
  primariesMismatch : Nat → Bool
  channelsMismatch : Nat → Bool
  notSceneLinear : Nat → Bool
  notSrgb : Nat → Bool

/-- The loop state of colorSpaceIsBuiltin: the two result flags, whether the
loop has executed break, and how many samples have been examined. -/
structure ClassifyState where
  is_scene_linear : Bool
  is_srgb : Bool
  stopped : Bool
  samples : Nat
deriving DecidableEq

/-- One iteration of the sampling loop of colorSpaceIsBuiltin, translated
from the source: after a break nothing more happens; the crosstalk check,
the primaries check and the channel-agreement check each set both flags false
and break; otherwise the mean-vs-v check clears only is_scene_linear and the
mean-vs-srgb check clears only is_srgb. -/
def classifyStep (P : ProbeChecks) (i : Nat) (s : ClassifyState) : ClassifyState :=
  if s.stopped then
    s
  else if P.crosstalk i then
    { is_scene_linear := false, is_srgb := false, stopped := true, samples := s.samples + 1 }
  else if P.primariesMismatch i then
    { is_scene_linear := false, is_srgb := false, stopped := true, samples := s.samples + 1 }
  else if P.channelsMismatch i then
    { is_scene_linear := false, is_srgb := false, stopped := true, samples := s.samples + 1 }
  else
    { is_scene_linear := if P.notSceneLinear i then false else s.is_scene_linear,
      is_srgb := if P.notSrgb i then false else s.is_srgb,
      stopped := false,
      samples := s.samples + 1 }

/-- The loop state after the first n iterations, starting from both flags
true as in the source. -/
def classifyRun (P : ProbeChecks) : Nat → ClassifyState
  | 0 => { is_scene_linear := true, is_srgb := true, stopped := false, samples := 0 }
  | n + 1 => classifyStep P n (classifyRun P n)

/-- OCIOImpl::colorSpaceIsBuiltin: when getProcessor throws (no conversion to
"scene_linear" can be built, modelled as none) both outputs are false and the
loop never runs; otherwise the two flags after the 256-iteration loop are
returned. -/
def colorSpaceIsBuiltin (proc : Option ProbeChecks) : Bool × Bool :=
  match proc with
  | none => (false, false)
  | some P => ((classifyRun P 256).is_scene_linear, (classifyRun P 256).is_srgb)

/-- Number of loop samples examined by colorSpaceIsBuiltin. -/
def classifySampleCount (proc : Option ProbeChecks) : Nat :=
  match proc with
  | none => 0
  | some P => (classifyRun P 256).samples

/-! ## splitStringEnvStyle -/

/-- The loop of splitStringEnvStyle, translated to structural recursion over
the character list: a character that is neither a comma nor a colon extends
the current token; a separator flushes the current token to the output when
the token is non-empty; after the loop the final token is flushed when
non-empty.  The accumulator holds the current token reversed. -/
def splitEnvAux (token : List Char) : List Char → List (List Char)
  | [] => if token.isEmpty then [] else [token.reverse]
  | c :: rest =>
    if c != ',' && c != ':' then
      splitEnvAux (c :: token) rest
    else if token.isEmpty then
      splitEnvAux [] rest
    else
      token.reverse :: splitEnvAux [] rest

/-- splitStringEnvStyle from the source, on a character list. -/
def splitStringEnvStyle (s : List Char) : List (List Char) :=
  splitEnvAux [] s

/-- stringToLower from the source: std::transform with tolower over the
characters of the string (strings are modelled as character lists, as the
source manipulates std::string character data). -/
def stringToLower (s : List Char) : List Char :=
  s.map Char.toLower

/-! ## configGetDefaultDisplay -/

/-- OCIOImpl::configGetDefaultDisplay, translated from the source.  Inputs:
whether the OCIO_ACTIVE_DISPLAYS environment variable is set, the
active-displays string of the configuration (a character list: the source works on
the raw C string here, splitting only on a comma via strchr), the
process-wide static active_display cache (none until first populated, some v
once its C-string view is v; after the first population the stored string is
never empty, so it stays populated), and the own
getDefaultDisplay result of the configuration (none when it throws and NULL is returned).
Returns the result together with the new cache state. -/
def configGetDefaultDisplay (envSet : Bool) (activeDisplays : List Char)
    (cache : Option (List Char)) (fallback : Option (List Char)) :
    Option (List Char) × Option (List Char) :=
  if envSet = false then
    if activeDisplays ≠ [] then
      if ',' ∈ activeDisplays then
        match cache with
        | some v => (some v, some v)
        | none =>
          let v := activeDisplays.takeWhile (fun c => c != ',')
          (some v, some v)
      else
        (some activeDisplays, cache)
    else
      (fallback, cache)
  else
    (fallback, cache)

/-! ## configGetDefaultView -/

/-- The parts of the configuration read by configGetDefaultView: the
active-views string, the views supported by each display (getView for the
indices 0 .. getNumViews display - 1), and the own
getDefaultView resolution of the configuration (none when it throws and NULL is returned). -/
structure ViewConfig where
  activeViews : List Char
  views : List Char → List (List Char)
  getDefaultView : List Char → Option (List Char)

/-- OCIOImpl::configGetDefaultView, translated from the source.  envSet
models whether the OCIO_ACTIVE_VIEWS environment variable is present; cache
models the process-wide static map from lowercased display name to the
cached view (the display_views std::set is modelled by list membership).
Returns the result and the new cache state. -/
def configGetDefaultView (envSet : Bool) (cfg : ViewConfig) (display : List Char)
    (cache : List (List Char × List Char)) :
    Option (List Char) × List (List Char × List Char) :=
  if envSet = false ∧ cfg.activeViews ≠ [] then
    let display_lower := stringToLower display
    match cache.lookup display_lower with
    | some v => (some v, cache)
    | none =>
      let active_views := splitStringEnvStyle cfg.activeViews
      let display_views := (cfg.views display).map stringToLower
      match active_views.find? (fun view => display_views.contains (stringToLower view)) with
      | some view => (some view, (display_lower, view) :: cache)
      | none => (cfg.getDefaultView display, cache)
  else
    (cfg.getDefaultView display, cache)

/-- A concrete configuration used as the witness input for the
configGetDefaultView theorem: active views Filmic:Standard, one display
Disp with views standard and Raw. -/
def viewConfigW : ViewConfig :=
  { activeViews := ['F', 'i', 'l', 'm', 'i', 'c', ':', 'S', 't', 'a', 'n', 'd', 'a', 'r', 'd'],
    views := fun d =>
      if d = ['D', 'i', 's', 'p'] then
        [['s', 't', 'a', 'n', 'd', 'a', 'r', 'd'], ['R', 'a', 'w']]
      else [],
    getDefaultView := fun _ => none }

/-! ## TransformChainBuilder: createDisplayProcessor -/

/-- The transforms appended to the group transform by createDisplayProcessor.
Floats are modelled by exact rationals: the chain structure does not depend
on rounding. -/
inductive Transform where
  | colorSpaceT (src dst : String)
  | matrixT (m : List ℚ)
  | lookT (src dst looks : String)
  | displayViewT (src : String) (looksBypass : Bool) (view display : String)
  | exponentT (value : List ℚ)
deriving DecidableEq

/-- The OpenColorIO ROLE_SCENE_LINEAR constant. -/
def ROLE_SCENE_LINEAR : String := "scene_linear"

/-- OCIOImpl::createDisplayProcessor, translated from the source; the result
is the ordered list of transforms appended to the group (compiling the group
into a processor is opaque).  getLooksResultColorSpace models the external
LookTransform::GetLooksResultColorSpace lookup of the configuration.  The
look argument models a non-null C string: the source dereferences look via
strlen unconditionally, so on the valid domain the source expression
look != NULL that feeds setLooksBypass is constantly true. -/
def createDisplayProcessor (getLooksResultColorSpace : String → String)
    (input view display look : String) (scale exponent : ℚ) : List Transform :=
  let group : List Transform := []
  let (group, input) :=
    if scale ≠ 1 then
      (group ++ [Transform.colorSpaceT input ROLE_SCENE_LINEAR,
        Transform.matrixT
          [scale, 0, 0, 0, 0, scale, 0, 0, 0, 0, scale, 0, 0, 0, 0, 1]],
        ROLE_SCENE_LINEAR)
    else
      (group, input)
  let (group, input) :=
    if look.length ≠ 0 then
      let look_output := getLooksResultColorSpace look
      (group ++ [Transform.lookT input look_output look], look_output)
    else
      (group, input)
  let group := group ++ [Transform.displayViewT input true view display]
  if exponent ≠ 1 then
    group ++ [Transform.exponentT [exponent, exponent, exponent, 1]]
  else
    group

/-- True exactly on display/view transforms whose looksBypass flag is
false. -/
def isDisplayViewNoBypass : Transform → Bool
  | Transform.displayViewT _ looksBypass _ _ => !looksBypass
  | _ => false

/-- True exactly on display/view transforms. -/
def isDisplayView : Transform → Bool
  | Transform.displayViewT _ _ _ _ => true
  | _ => false

/-! ## configGetXYZtoRGB -/

/-- A color triple, modelled with exact rationals. -/
abbrev Vec3 := ℚ × ℚ × ℚ

/-- A 3x3 matrix as three rows, as the source stores float m[3][3]. -/
abbrev Mat3 := Vec3 × Vec3 × Vec3

/-- Modelled from the spec: the fixed ITU-BT.709 XYZ-to-linear-sRGB fallback
constant OCIO_XYZ_TO_LINEAR_SRGB is defined outside the given sources; the
claims depend only on it being a fixed constant, not on its entries. -/
def OCIO_XYZ_TO_LINEAR_SRGB : Mat3 :=
  ((3.2404542, -1.5371385, -0.4985314),
   (-0.9692660, 1.8760108, 0.0415560),
   (0.0556434, -0.2040259, 1.0572252))

/-- The xyz_to_aces constant of configGetXYZtoRGB. -/
def xyz_to_aces : Mat3 :=
  ((1.0498110175, -0.4959030231, 0.0),
   (0.0, 1.3733130458, 0.0),
   (-0.0000974845, 0.0982400361, 0.9912520182))

/-- The 3x3 matrix product mul_m3_m3m3 used by configGetXYZtoRGB. -/
def mul_m3_m3m3 : Mat3 → Mat3 → Mat3
  | ((a00, a01, a02), (a10, a11, a12), (a20, a21, a22)),
    ((b00, b01, b02), (b10, b11, b12), (b20, b21, b22)) =>
    ((a00 * b00 + a01 * b10 + a02 * b20,
      a00 * b01 + a01 * b11 + a02 * b21,
      a00 * b02 + a01 * b12 + a02 * b22),
     (a10 * b00 + a11 * b10 + a12 * b20,
      a10 * b01 + a11 * b11 + a12 * b21,
      a10 * b02 + a11 * b12 + a12 * b22),
     (a20 * b00 + a21 * b10 + a22 * b20,
      a20 * b01 + a21 * b11 + a22 * b21,
      a20 * b02 + a21 * b12 + a22 * b22))

/-- The parts of the configuration read by configGetXYZtoRGB: the role
table, and the scene-linear conversion that getProcessor (from the named
space to ROLE_SCENE_LINEAR) followed by getDefaultCPUProcessor yields;
none models a thrown exception or a null processor. -/
structure RoleConfig where
  hasRole : String → Bool
  processor : String → Option (Vec3 → Vec3)

/-- to_scene_linear_matrix from the source: on success the returned matrix
rows are the images of the three basis rows (1,0,0), (0,1,0), (0,0,1) under
the conversion from the named color space to the scene-linear role. -/
def to_scene_linear_matrix (config : RoleConfig) (colorspace : String) : Option Mat3 :=
  match config.processor colorspace with
  | none => none
  | some apply => some (apply (1, 0, 0), apply (0, 1, 0), apply (0, 0, 1))

/-- OCIOImpl::configGetXYZtoRGB, translated from the source: the result
defaults to OCIO_XYZ_TO_LINEAR_SRGB; with a scene_linear role, an
aces_interchange role composes its scene-linear matrix with xyz_to_aces,
else a legacy XYZ role triggers a lookup under the name XXYZ (the literal
string the source passes), whose failure leaves the default in place. -/
def configGetXYZtoRGB (config : RoleConfig) : Mat3 :=
  if config.hasRole ROLE_SCENE_LINEAR = false then
    OCIO_XYZ_TO_LINEAR_SRGB
  else if config.hasRole "aces_interchange" then
    match to_scene_linear_matrix config "aces_interchange" with
    | some aces_to_rgb => mul_m3_m3m3 aces_to_rgb xyz_to_aces
    | none => OCIO_XYZ_TO_LINEAR_SRGB
  else if config.hasRole "XYZ" then
    match to_scene_linear_matrix config "XXYZ" with
    | some m => m
    | none => OCIO_XYZ_TO_LINEAR_SRGB
  else
    OCIO_XYZ_TO_LINEAR_SRGB

/-- A concrete configuration exercising the legacy-XYZ branch: it has the
scene_linear and XYZ roles, no aces_interchange role, and a conversion (a
doubling map) only under the role name XYZ that was checked, not under
XXYZ. -/
def xyzRoleConfig : RoleConfig :=
  { hasRole := fun r => r == "scene_linear" || r == "XYZ",
    processor := fun name =>
      if name == "XYZ" then
        some (fun v => (2 * v.1, 2 * v.2.1, 2 * v.2.2))
      else
        none }

end Ocio

namespace Ocio

/-! ## Theorems -/

/-- C5: processorApplyRGBA_predivide behaves exactly as the plain RGBA apply
when alpha is 0 or 1; for every other alpha it divides r, g, b by alpha,
applies the transform to all four channels, and multiplies the resulting
first three channels by the original alpha. -/
theorem processorApplyRGBA_predivide_spec (apply : Pixel → Pixel) (p : Pixel) :
    processorApplyRGBA_predivide apply p =
      if p.a = 1 ∨ p.a = 0 then
        processorApplyRGBA apply p
      else
        let q := processorApplyRGBA apply
          { r := p.r / p.a, g := p.g / p.a, b := p.b / p.a, a := p.a }
        { r := q.r * p.a, g := q.g * p.a, b := q.b * p.a, a := q.a } := by
  unfold processorApplyRGBA_predivide
  split
  · rfl
  · simp only [mul_one_div]

/-- C8: colorSpaceIsInvertible returns false exactly when the family string is
"rrt" or "display"; every other space, whether a data space, a space with a
to-reference transform, or a space with neither, is reported invertible. -/
theorem colorSpaceIsInvertible_characterization (cs : ColorSpace) :
    colorSpaceIsInvertible cs = !(cs.family == "rrt" || cs.family == "display") := by
  unfold colorSpaceIsInvertible
  rcases h : (cs.family == "rrt" || cs.family == "display") with _ | _ <;> simp [h]

/-- C6: throughout the sampling loop of colorSpaceIsBuiltin both result flags
start true; each iteration can only keep or clear either flag, never set one
back to true; and the returned pair is the accumulated state after the full
run over the samples examined. -/
theorem colorSpaceIsBuiltin_flags_monotone (P : ProbeChecks) (n : Nat) :
    ((classifyRun P 0).is_scene_linear = true ∧ (classifyRun P 0).is_srgb = true) ∧
    ((classifyRun P (n + 1)).is_scene_linear ≤ (classifyRun P n).is_scene_linear ∧
      (classifyRun P (n + 1)).is_srgb ≤ (classifyRun P n).is_srgb) ∧
    colorSpaceIsBuiltin (some P) =
      ((classifyRun P 256).is_scene_linear, (classifyRun P 256).is_srgb) := by
  refine ⟨⟨rfl, rfl⟩, ?_, rfl⟩
  show (classifyStep P n (classifyRun P n)).is_scene_linear ≤ _ ∧
    (classifyStep P n (classifyRun P n)).is_srgb ≤ _
  generalize classifyRun P n = s
  unfold classifyStep
  split
  · exact ⟨le_refl _, le_refl _⟩
  · split
    · exact ⟨Bool.false_le _, Bool.false_le _⟩
    · split
      · exact ⟨Bool.false_le _, Bool.false_le _⟩
      · split
        · exact ⟨Bool.false_le _, Bool.false_le _⟩
        · constructor
          · show (if P.notSceneLinear n then false else s.is_scene_linear) ≤ _
            split
            · exact Bool.false_le _
            · exact le_refl _
          · show (if P.notSrgb n then false else s.is_srgb) ≤ _
            split
            · exact Bool.false_le _
            · exact le_refl _

/-- C7: when the transform from the candidate space to the scene_linear
reference cannot be built, colorSpaceIsBuiltin reports (false, false) and
examines no samples. -/
theorem colorSpaceIsBuiltin_no_processor :
    colorSpaceIsBuiltin none = (false, false) ∧ classifySampleCount none = 0 :=
  ⟨rfl, rfl⟩

/-- Helper: the negated separator test of the splitStringEnvStyle loop is the
negation of the splitting predicate. -/
theorem envSep_negb (c : Char) :
    (c != ',' && c != ':') = !(c == ',' || c == ':') := by
  cases h1 : (c == ',') <;> cases h2 : (c == ':') <;> simp [bne, h1, h2]

/-- Helper: splitEnvAux with accumulator acc computes the non-empty-token
filter of the full split, with the reversed accumulator prepended to the
first chunk. -/
theorem splitEnvAux_eq (l : List Char) : ∀ acc : List Char,
    splitEnvAux acc l =
      (((l.splitOnP (fun c => c == ',' || c == ':')).modifyHead
          (fun t => acc.reverse ++ t)).filter (fun t => !t.isEmpty)) := by
  induction l with
  | nil =>
    intro acc
    show (if acc.isEmpty then [] else [acc.reverse]) = _
    rw [List.splitOnP_nil]
    have hrev : acc.reverse.isEmpty = acc.isEmpty := by
      rcases acc with _ | ⟨a, as⟩
      · rfl
      · rcases h : as.reverse with _ | ⟨x, xs⟩ <;> simp [List.isEmpty, h]
    simp only [List.modifyHead, List.append_nil, List.filter, hrev]
    cases h : acc.isEmpty <;> rfl
  | cons c rest ih =>
    intro acc
    show (if c != ',' && c != ':' then splitEnvAux (c :: acc) rest
          else if acc.isEmpty then splitEnvAux [] rest
          else acc.reverse :: splitEnvAux [] rest) = _
    rw [List.splitOnP_cons, envSep_negb]
    rcases hsp : rest.splitOnP (fun c => c == ',' || c == ':') with _ | ⟨s0, st⟩
    · exact absurd hsp (List.splitOnP_ne_nil _ rest)
    · by_cases hsep : (c == ',' || c == ':') = true
      · rw [hsep]
        simp only [Bool.not_true, Bool.false_eq_true, if_false, if_pos hsep]
        rcases acc with _ | ⟨a, as⟩
        · rw [show (List.isEmpty ([] : List Char)) = true from rfl, if_pos rfl,
            ih [], hsp]
          simp [List.modifyHead, List.filter]
        · rw [show ((a :: as).isEmpty) = false from rfl]
          simp only [Bool.false_eq_true, if_false]
          rw [ih [], hsp]
          simp [List.modifyHead, List.filter_cons]
      · rw [eq_false_of_ne_true hsep]
        simp only [Bool.not_false, if_true, if_neg hsep]
        rw [ih (c :: acc), hsp]
        simp [List.modifyHead, List.reverse_cons, List.append_assoc]

/-- C9: splitStringEnvStyle splits its input on both commas and colons and
discards the empty tokens produced by adjacent, leading or trailing
separators: the result is exactly the list of non-empty comma-or-colon
delimited substrings. -/
theorem splitStringEnvStyle_spec (l : List Char) :
    splitStringEnvStyle l =
      (l.splitOnP (fun c => c == ',' || c == ':')).filter (fun t => !t.isEmpty) := by
  rw [splitStringEnvStyle, splitEnvAux_eq]
  rcases h : l.splitOnP (fun c => c == ',' || c == ':') with _ | ⟨s0, st⟩
  · rfl
  · simp [List.modifyHead]

/-- Helper: the head of a splitOnP decomposition is the longest prefix of
elements on which the predicate is false. -/
theorem headI_splitOnP (p : Char → Bool) (l : List Char) :
    (l.splitOnP p).headI = l.takeWhile (fun c => !p c) := by
  induction l with
  | nil => rfl
  | cons c rest ih =>
    rw [List.splitOnP_cons, List.takeWhile_cons]
    cases h : p c
    · rcases hrest : rest.splitOnP p with _ | ⟨a, t⟩
      · exact absurd hrest (List.splitOnP_ne_nil p rest)
      · rw [hrest] at ih
        simp only [Bool.false_eq_true, if_false, Bool.not_false, if_true, List.modifyHead,
          List.headI] at *
        rw [ih]
    · simp [h]

/-- C3: with no override variable set and a non-empty active-displays list,
a call to configGetDefaultDisplay in the initial cache state returns the
first comma-delimited entry of the list, not the alphabetically first
display. -/
theorem configGetDefaultDisplay_first_entry (activeDisplays : List Char)
    (fallback : Option (List Char)) (h : activeDisplays ≠ []) :
    (configGetDefaultDisplay false activeDisplays none fallback).1 =
      some ((activeDisplays.splitOnP (fun c => c == ',')).headI) := by
  rw [headI_splitOnP]
  unfold configGetDefaultDisplay
  by_cases hc : ',' ∈ activeDisplays
  · rw [if_pos rfl, if_pos h, if_pos hc]
    rfl
  · rw [if_pos rfl, if_pos h, if_neg hc]
    have heq : activeDisplays.takeWhile (fun c => !(c == ',')) = activeDisplays := by
      rw [List.takeWhile_eq_self_iff]
      intro a ha
      have hne : a ≠ ',' := fun he => hc (he ▸ ha)
      simp [hne]
    rw [heq]

/-- Witness for configGetDefaultDisplay_first_entry at the concrete input
from the specification example. -/
theorem configGetDefaultDisplay_first_entry_witness :
    (['b', ',', 'a'] ≠ ([] : List Char)) ∧
    (configGetDefaultDisplay false ['b', ',', 'a'] none none).1 = some ['b'] :=
  ⟨by decide, (configGetDefaultDisplay_first_entry ['b', ',', 'a'] none (by decide)).trans
    (by decide)⟩

/-- C10: the default-display cache is a single process-wide value not keyed
by configuration: after a first call with a multi-entry active-displays list
populates it, a later call with a different configuration whose
active-displays list is also non-empty and multi-entry returns the cached
name from the first call. -/
theorem configGetDefaultDisplay_cache_process_wide (l1 l2 : List Char)
    (fb1 fb2 : Option (List Char))
    (h1 : l1 ≠ []) (h1c : ',' ∈ l1) (h2 : l2 ≠ []) (h2c : ',' ∈ l2) :
    (configGetDefaultDisplay false l2
        (configGetDefaultDisplay false l1 none fb1).2 fb2).1 =
      (configGetDefaultDisplay false l1 none fb1).1 := by
  unfold configGetDefaultDisplay
  simp [h1, h1c, h2, h2c]

/-- Witness for configGetDefaultDisplay_cache_process_wide: the second
list of the second configuration is x,y yet the cached b of the first call is returned. -/
theorem configGetDefaultDisplay_cache_process_wide_witness :
    (['b', ',', 'a'] ≠ ([] : List Char)) ∧ ',' ∈ ['b', ',', 'a'] ∧
    (['x', ',', 'y'] ≠ ([] : List Char)) ∧ ',' ∈ ['x', ',', 'y'] ∧
    (configGetDefaultDisplay false ['x', ',', 'y']
        (configGetDefaultDisplay false ['b', ',', 'a'] none none).2 none).1 =
      (configGetDefaultDisplay false ['b', ',', 'a'] none none).1 :=
  ⟨by decide, by decide, by decide, by decide,
    configGetDefaultDisplay_cache_process_wide ['b', ',', 'a'] ['x', ',', 'y'] none none
      (by decide) (by decide) (by decide) (by decide)⟩

/-- C4: with no override set and a non-empty active-views list, the first
call for a display returns the first entry of the active-views list that is
a view of that display under case-insensitive name matching, and a repeated
call for the same display returns the same cached value. -/
theorem configGetDefaultView_first_match_and_cached (cfg : ViewConfig)
    (display v0 : List Char) (cache : List (List Char × List Char))
    (hav : cfg.activeViews ≠ [])
    (hcache : cache.lookup (stringToLower display) = none)
    (hfind : (splitStringEnvStyle cfg.activeViews).find?
        (fun view => ((cfg.views display).map stringToLower).contains (stringToLower view)) =
        some v0) :
    (configGetDefaultView false cfg display cache).1 = some v0 ∧
    (configGetDefaultView false cfg display
        (configGetDefaultView false cfg display cache).2).1 = some v0 := by
  have h1 : configGetDefaultView false cfg display cache =
      (some v0, (stringToLower display, v0) :: cache) := by
    unfold configGetDefaultView
    rw [if_pos ⟨rfl, hav⟩]
    simp only [hcache, hfind]
  rw [h1]
  refine ⟨rfl, ?_⟩
  unfold configGetDefaultView
  rw [if_pos ⟨rfl, hav⟩]
  have h2 : ((stringToLower display, v0) :: cache).lookup (stringToLower display) =
      some v0 := by
    simp [List.lookup]
  simp only [h2]

/-- Witness for configGetDefaultView_first_match_and_cached: active views
Filmic:Standard, display Disp with views standard and Raw; the first
case-insensitive match is Standard, and the repeated call returns it from
the cache. -/
theorem configGetDefaultView_first_match_and_cached_witness :
    viewConfigW.activeViews ≠ [] ∧
    (([] : List (List Char × List Char)).lookup
      (stringToLower ['D', 'i', 's', 'p']) = none) ∧
    ((splitStringEnvStyle viewConfigW.activeViews).find?
        (fun view => ((viewConfigW.views ['D', 'i', 's', 'p']).map stringToLower).contains
          (stringToLower view)) =
        some ['S', 't', 'a', 'n', 'd', 'a', 'r', 'd']) ∧
    ((configGetDefaultView false viewConfigW ['D', 'i', 's', 'p'] []).1 =
        some ['S', 't', 'a', 'n', 'd', 'a', 'r', 'd'] ∧
      (configGetDefaultView false viewConfigW ['D', 'i', 's', 'p']
          (configGetDefaultView false viewConfigW ['D', 'i', 's', 'p'] []).2).1 =
        some ['S', 't', 'a', 'n', 'd', 'a', 'r', 'd']) :=
  ⟨by decide, by decide, by decide,
    configGetDefaultView_first_match_and_cached viewConfigW ['D', 'i', 's', 'p']
      ['S', 't', 'a', 'n', 'd', 'a', 'r', 'd'] []
      (by decide) (by decide) (by decide)⟩

/-- C1, evaluated at the failing input: createDisplayProcessor with
look = "" (a non-null empty look), scale = 1 and exponent = 1 produces a
chain whose single display/view transform has looksBypass = true, because
the source passes look != NULL to setLooksBypass while the look transform
itself is gated on strlen(look); the claim expects looksBypass = false
here. -/
theorem createDisplayProcessor_empty_look_sets_bypass :
    createDisplayProcessor (fun _ => "look_output") "Linear" "Standard" "Display1" "" 1 1 =
      [Transform.displayViewT "Linear" true "Standard" "Display1"] ∧
    ((createDisplayProcessor (fun _ => "look_output") "Linear" "Standard" "Display1" "" 1 1).filter
        isDisplayView).length = 1 ∧
    ((createDisplayProcessor (fun _ => "look_output") "Linear" "Standard" "Display1" "" 1 1).filter
        isDisplayViewNoBypass) = [] := by
  decide

/-- C2, evaluated at the failing input: on a configuration with the
scene_linear and legacy XYZ roles and no aces_interchange role, whose
conversion exists under the checked role name XYZ (a doubling map) but not
under XXYZ, configGetXYZtoRGB returns the untouched BT.709 default rather
than the matrix obtained from the scene-linear conversion of the XYZ role,
because the source passes the literal XXYZ to the conversion lookup. -/
theorem configGetXYZtoRGB_legacy_role_typo :
    configGetXYZtoRGB xyzRoleConfig = OCIO_XYZ_TO_LINEAR_SRGB ∧
    to_scene_linear_matrix xyzRoleConfig "XYZ" =
      some ((2, 0, 0), (0, 2, 0), (0, 0, 2)) ∧
    OCIO_XYZ_TO_LINEAR_SRGB ≠ ((2, 0, 0), (0, 2, 0), (0, 0, 2)) := by
  refine ⟨rfl, ?_, ?_⟩
  · norm_num [to_scene_linear_matrix, xyzRoleConfig]
  · norm_num [OCIO_XYZ_TO_LINEAR_SRGB, Prod.ext_iff]

